/-
  Verification of the crypto price-prediction pipeline:
  a shallow embedding in Lean 4 of the windowing/scaling protocol
  (backend/models/price_predictor.py), the indicator computations
  (backend/data/data_fetcher.py), the synthetic data generator
  (backend/data/mock_data.py), the ingestion coordinator's retry and
  degraded-mode logic (backend/data/data_fetcher.py), the artifact
  save/load file protocol, and the backtest evaluator
  (backend/check_accuracy.py).

  Numeric values are modelled as rationals (the Python code uses
  IEEE doubles); where float semantics produce NaN or Inf the model
  uses `Option ℚ` with `none` standing for any non-finite value.
-/
import Mathlib

namespace CryptoPred

/-! ## MinMaxScaler (sklearn.preprocessing.MinMaxScaler, feature_range (0,1))

Fitted state is the per-feature data minimum and maximum.  sklearn computes
`scale_ = 1 / handle_zeros(data_max_ - data_min_)` (a zero range is replaced
by 1) and `min_ = -data_min_ * scale_`; `transform` is `x * scale_ + min_`
and `inverse_transform` is `(x - min_) / scale_`.  `transform` first runs
`check_array`, which rejects an input whose feature count differs from the
fitted `n_features_in_`. -/

structure MinMaxScaler where
  dataMin : List ℚ
  dataMax : List ℚ
deriving Repr, DecidableEq

/-- sklearn's `_handle_zeros_in_scale`: a zero data range is replaced by 1. -/
def handleZeros (r : ℚ) : ℚ := if r = 0 then 1 else r

def MinMaxScaler.nFeaturesIn (s : MinMaxScaler) : ℕ := s.dataMin.length

/-- Per-feature multiplicative factor `scale_ = (1 - 0) / handle_zeros(max - min)`. -/
def scaleOf (mn mx : ℚ) : ℚ := 1 / handleZeros (mx - mn)

/-- Per-feature offset `min_ = 0 - data_min_ * scale_`. -/
def minOf (mn mx : ℚ) : ℚ := 0 - mn * scaleOf mn mx

/-- `transform` of one row: elementwise `x * scale_ + min_`. -/
def MinMaxScaler.transformRow (s : MinMaxScaler) (x : List ℚ) : List ℚ :=
  List.zipWith (fun xi (p : ℚ × ℚ) => xi * scaleOf p.1 p.2 + minOf p.1 p.2)
    x (s.dataMin.zip s.dataMax)

/-- `inverse_transform` of one row: elementwise `(x - min_) / scale_`. -/
def MinMaxScaler.inverseRow (s : MinMaxScaler) (x : List ℚ) : List ℚ :=
  List.zipWith (fun xi (p : ℚ × ℚ) => (xi - minOf p.1 p.2) / scaleOf p.1 p.2)
    x (s.dataMin.zip s.dataMax)

/-- Column `j` of a row-major matrix (`X[:, j]`). -/
def colVals (X : List (List ℚ)) (j : ℕ) : List ℚ := X.map (fun r => r.getD j 0)

def listMin : List ℚ → ℚ
  | [] => 0
  | x :: xs => xs.foldl min x

def listMax : List ℚ → ℚ
  | [] => 0
  | x :: xs => xs.foldl max x

/-- `MinMaxScaler.fit` over a matrix with `n` feature columns: records the
per-column minimum and maximum. -/
def MinMaxScaler.fit (X : List (List ℚ)) (n : ℕ) : MinMaxScaler where
  dataMin := (List.range n).map (fun j => listMin (colVals X j))
  dataMax := (List.range n).map (fun j => listMax (colVals X j))

/-- `transform` on a matrix, with sklearn's `check_array` feature-count
check: a matrix whose width differs from `n_features_in_` is rejected. -/
def MinMaxScaler.transformMatrix (s : MinMaxScaler) (X : List (List ℚ))
    (width : ℕ) : Except String (List (List ℚ)) :=
  if width = s.nFeaturesIn then .ok (X.map s.transformRow)
  else .error "X has a different number of features than MinMaxScaler was fitted with"

/-- `fit_transform`: fit on the matrix, then transform every row. -/
def fitTransform (X : List (List ℚ)) (n : ℕ) : MinMaxScaler × List (List ℚ) :=
  let s := MinMaxScaler.fit X n
  (s, X.map s.transformRow)

/-! ## PricePredictor.prepare_sequences (price_predictor.py 86-134)

After selecting the feature columns and scaling, the loop
`for i in range(self.lookback, len(scaled_data) - self.prediction_days)`
emits `X.append(scaled_data[i-lookback:i])` and
`y.append(scaled_data[i:i+prediction_days, close_idx])`. -/

/-- The windowing loop of `prepare_sequences` on the scaled feature matrix.
Python's `range(lookback, len - predictionDays)` is the indices
`lookback, …, len - predictionDays - 1` (empty when the upper bound does not
exceed the lower). -/
def prepare_sequences (features : List (List ℚ)) (lookback predictionDays closeIdx nCols : ℕ) :
    List (List (List ℚ) × List ℚ) :=
  let scaled := (fitTransform features nCols).2
  ((List.range (scaled.length - predictionDays)).drop lookback).map fun i =>
    ((scaled.drop (i - lookback)).take lookback,
     ((scaled.drop i).take predictionDays).map (fun row => row.getD closeIdx 0))

/-! ## The prediction pipeline (price_predictor.py, predict, lines 251-325) -/

/-- A loaded dated feature table: named columns and row-major values. -/
structure DataFrame where
  cols : List String
  rows : List (List ℚ)
deriving Repr, DecidableEq

/-- One entry of the returned forecast list: calendar dates are modelled as
integer day numbers (`timedelta(days=k)` is `+ k`). -/
structure Forecast where
  date : ℤ
  price : ℚ
  changePercent : ℚ
deriving Repr, DecidableEq, Inhabited

/-- The zero-filled dummy row with the step's normalized value placed at the
close column (`dummy = np.zeros(...); dummy[_, close_idx] = v`). -/
def dummyRow (n closeIdx : ℕ) (v : ℚ) : List ℚ :=
  (List.range n).map (fun j => if j = closeIdx then v else 0)

/-- `data['Close'].iloc[-1]`: the last known real close of the table. -/
def lastClose (df : DataFrame) : ℚ :=
  (df.rows.getLast?.getD []).getD (df.cols.indexOf "Close") 0

/-- The forecast-assembly loop at the end of `predict`
(`for i in range(self.prediction_days): pred_date = last_date +
timedelta(days=i+1); change_pct = ((pred_price - current_price) /
current_price) * 100`). -/
def reconstructForecasts (prices : List ℚ) (currentPrice : ℚ) (lastDate : ℤ)
    (predictionDays : ℕ) : List Forecast :=
  (List.range predictionDays).map fun (i : ℕ) =>
    { date := lastDate + (i : ℤ) + 1
      price := prices.getD i 0
      changePercent := ((prices.getD i 0) - currentPrice) / currentPrice * 100 }

/-- `PricePredictor.predict` after the model is loaded, with the Keras
regressor abstracted as a function from the scaled window to its normalized
output vector.  Faithful steps: filter the manifest columns to those present
(`available_cols`), take the most recent `lookback` rows, scale them (the
scaler's `check_array` rejects a width different from the fitted one),
run the model, inverse-transform each step through a zero-filled dummy row at
the close column, and assemble dated forecasts with percentage change
against the last known close. -/
def predict (scaler : MinMaxScaler) (feature_cols : List String)
    (lookback predictionDays : ℕ) (model : List (List ℚ) → List ℚ)
    (df : DataFrame) (lastDate : ℤ) : Except String (List Forecast) := do
  let available_cols := feature_cols.filter (fun c => df.cols.contains c)
  let features := (df.rows.drop (df.rows.length - lookback)).map
    (fun r => available_cols.map (fun c => r.getD (df.cols.indexOf c) 0))
  let scaled ← scaler.transformMatrix features available_cols.length
  let predictionScaled := model scaled
  let close_idx := available_cols.indexOf "Close"
  let prices := (List.range predictionDays).map (fun i =>
    (scaler.inverseRow
        (dummyRow available_cols.length close_idx (predictionScaled.getD i 0))).getD
      close_idx 0)
  .ok (reconstructForecasts prices (lastClose df) lastDate predictionDays)

/-! ## Technical indicators (data_fetcher.py, calculate_technical_indicators)

The Python values are IEEE doubles and pandas propagates NaN/Inf through
arithmetic; `FVal` models a double as a finite rational, a signed infinity or
NaN. -/

inductive FVal
  | fin (q : ℚ)
  | inf (pos : Bool)
  | nan
deriving Repr, DecidableEq

def FVal.neg : FVal → FVal
  | fin q => fin (-q)
  | inf s => inf (!s)
  | nan => nan

def FVal.add : FVal → FVal → FVal
  | nan, _ => nan
  | _, nan => nan
  | fin a, fin b => fin (a + b)
  | fin _, inf s => inf s
  | inf s, fin _ => inf s
  | inf s, inf t => if s = t then inf s else nan

def FVal.sub (a b : FVal) : FVal := a.add b.neg

/-- IEEE-style division: `0/0 = NaN`, `x/0 = ±Inf` (zeros arising in this
pipeline are positive zeros), `x/±Inf = 0`. -/
def FVal.div : FVal → FVal → FVal
  | nan, _ => nan
  | _, nan => nan
  | fin a, fin b =>
      if b = 0 then (if a = 0 then nan else inf (decide (0 < a)))
      else fin (a / b)
  | fin _, inf _ => fin 0
  | inf s, fin b => if b < 0 then inf (!s) else inf s
  | inf _, inf _ => nan

/-- `Series.diff()`: first entry NaN, then adjacent differences. -/
def seriesDiff (xs : List ℚ) : List FVal :=
  (List.range xs.length).map fun i =>
    if i = 0 then .nan else .fin (xs.getD i 0 - xs.getD (i - 1) 0)

/-- `delta.where(delta > 0, 0)`: keep positive entries, replace the rest
(including NaN, whose comparison is false) by 0. -/
def whereGtZero : FVal → FVal
  | .fin q => if 0 < q then .fin q else .fin 0
  | .inf s => if s then .inf true else .fin 0
  | .nan => .fin 0

/-- `-delta.where(delta < 0, 0)`: keep negative entries negated, replace the
rest (including NaN) by 0. -/
def whereLtZeroNeg : FVal → FVal
  | .fin q => if q < 0 then .fin (-q) else .fin 0
  | .inf s => if s then .fin 0 else .inf true
  | .nan => .fin 0

def rollingSum (win : List FVal) : FVal := win.foldl FVal.add (.fin 0)

/-- `Series.rolling(window=w).mean()`: NaN for the first w-1 rows, then the
mean of the trailing w entries (NaN if the window holds a NaN). -/
def rollingMean (w : ℕ) (xs : List FVal) : List FVal :=
  (List.range xs.length).map fun i =>
    if i + 1 < w then .nan
    else (rollingSum ((xs.drop (i + 1 - w)).take w)).div (.fin (w : ℚ))

/-- The RSI computation (lines 168-173): 14-day rolling mean of gains and of
losses, `rs = gain / loss`, `RSI = 100 - (100 / (1 + rs))`. -/
def rsiSeries (closes : List ℚ) : List FVal :=
  let delta := seriesDiff closes
  let gain := rollingMean 14 (delta.map whereGtZero)
  let loss := rollingMean 14 (delta.map whereLtZeroNeg)
  let rs := List.zipWith FVal.div gain loss
  rs.map fun r => (FVal.fin 100).sub ((FVal.fin 100).div ((FVal.fin 1).add r))

/-- `Series.rolling(window=w).std()` squared: the sample variance
(pandas default ddof = 1) of the trailing w entries; `none` during warm-up. -/
def rollingVar (w : ℕ) (xs : List ℚ) : List (Option ℚ) :=
  (List.range xs.length).map fun i =>
    if i + 1 < w then none
    else
      let win := (xs.drop (i + 1 - w)).take w
      let m := win.sum / (w : ℚ)
      some ((win.map (fun x => (x - m) ^ 2)).sum / ((w : ℚ) - 1))

/-- `Close.rolling(window=20).mean()` (BB_Middle). -/
def bbMiddle (closes : List ℚ) : List (Option ℚ) :=
  (List.range closes.length).map fun i =>
    if i + 1 < 20 then none
    else some (((closes.drop (i + 1 - 20)).take 20).sum / 20)

/-- `Close.rolling(window=20).std()` (bb_std), as a real since the standard
deviation of rationals is irrational in general. -/
noncomputable def bbStd (closes : List ℚ) : List (Option ℝ) :=
  (rollingVar 20 closes).map (Option.map fun (v : ℚ) => Real.sqrt ((v : ℝ)))

/-- `BB_Upper = BB_Middle + (bb_std * 2)`. -/
noncomputable def bbUpper (closes : List ℚ) : List (Option ℝ) :=
  List.zipWith
    (fun m s => match m, s with
      | some m, some s => some ((m : ℝ) + s * 2)
      | _, _ => none)
    (bbMiddle closes) (bbStd closes)

/-- `BB_Lower = BB_Middle - (bb_std * 2)`. -/
noncomputable def bbLower (closes : List ℚ) : List (Option ℝ) :=
  List.zipWith
    (fun m s => match m, s with
      | some m, some s => some ((m : ℝ) - s * 2)
      | _, _ => none)
    (bbMiddle closes) (bbStd closes)

/-- The Bollinger band width `BB_Upper - BB_Lower`. -/
noncomputable def bbWidth (closes : List ℚ) : List (Option ℝ) :=
  List.zipWith
    (fun u l => match u, l with
      | some u, some l => some (u - l)
      | _, _ => none)
    (bbUpper closes) (bbLower closes)

/-- The 120-row constant-close table of the claim. -/
def constClose120 : List ℚ := List.replicate 120 100

/-! ## Synthetic data generator (mock_data.py, MockDataGenerator)

The numpy draws are abstracted as given sequences of rationals: the generator
is seeded per coin, so each draw is a fixed function of its index; each
`np.random.normal(0, σ)` draw is σ times a standard draw. -/

/-- `self.base_prices.get(coin, 1000)`. -/
def base_prices : String → ℚ
  | "BTC" => 96000
  | "ETH" => 3600
  | "SOLANA" => 235
  | "BNB" => 600
  | "DOGE" => 8 / 100
  | _ => 1000

/-- One row of an OHLCV table (dates as integer day numbers). -/
structure OHLCVRow where
  date : ℤ
  openP : ℚ
  high : ℚ
  low : ℚ
  close : ℚ
  volume : ℚ
deriving Repr, DecidableEq

/-- The pseudo-random draws consumed by `generate_historical_data`, one
sequence per `np.random` call site. -/
structure MockRng where
  change : ℕ → ℚ
  wickHigh : ℕ → ℚ
  wickLow : ℕ → ℚ
  openDraw : ℕ → ℚ
  volDraw : ℕ → ℚ

/-- The random-walk loop: `current_price *= (1 + change)` for each of `days`
steps, collecting the prices. -/
def walkAux (changes : ℕ → ℚ) : ℕ → ℚ → ℕ → List ℚ
  | 0, _, _ => []
  | n + 1, current, i =>
      let next := current * (1 + changes i)
      next :: walkAux changes n next (i + 1)

/-- Prices of the walk started at `base_price * 0.7`. -/
def walkPrices (basePrice : ℚ) (changes : ℕ → ℚ) (days : ℕ) : List ℚ :=
  walkAux changes days (basePrice * (7 / 10)) 0

/-- `MockDataGenerator.generate_historical_data(coin, days)`: random walk
from 70% of the base price, rescaled by `adjustment = base_price / prices[-1]`
so the walk ends at the base price, then OHLCV rows are assembled
(row `i` is dated `end_date - (days - i)` days; high/low add/subtract an
absolute normal draw of scale `close * 0.02`). -/
def generate_historical_data (rng : MockRng) (coin : String) (days : ℕ)
    (today : ℤ) : List OHLCVRow :=
  let basePrice := base_prices coin
  let prices := walkPrices basePrice rng.change days
  let adjustment := basePrice / (prices.getLast?.getD 0)
  let adjusted := prices.map (· * adjustment)
  (List.range days).map fun i =>
    let close := adjusted.getD i 0
    let volatility := close * (2 / 100)
    { date := today - ((days : ℤ) - (i : ℤ))
      openP := rng.openDraw i
      high := close + |rng.wickHigh i| * volatility
      low := close - |rng.wickLow i| * volatility
      close := close
      volume := (if coin = "BTC" then 1000000000 else 500000000) *
        (1 + |rng.volDraw i|) }

/-! ## Ingestion coordinator (data_fetcher.py, DataFetcher)

The CryptoCompare adapter is abstracted as a function from attempt index to
an optional payload; `none` covers both a raised exception and a `None`
response, and an empty payload is checked separately as the code does. -/

structure FetcherState where
  useMockData : Bool
  apiFailed : Bool
deriving Repr, DecidableEq

/-- `days_map.get(period, 1825)`. -/
def days_map : String → ℕ
  | "1d" => 1
  | "5d" => 5
  | "1mo" => 30
  | "3mo" => 90
  | "6mo" => 180
  | "1y" => 365
  | "2y" => 730
  | "5y" => 1825
  | "max" => 3650
  | _ => 1825

inductive HistOutcome
  | real (rows : List OHLCVRow)
  | mock (rows : List OHLCVRow)
  | noResult
deriving Repr, DecidableEq

/-- The retry loop of `get_historical_data`: `remaining` attempts are left.
A failed attempt (exception, `None`, or empty frame) either continues or, on
the last attempt, sets the degraded-mode flag and returns mock data; success
clears the flag and returns the rows.  The third component counts provider
calls made. -/
def histLoop (provider : ℕ → Option (List OHLCVRow)) (mockRows : List OHLCVRow)
    (s : FetcherState) : ℕ → ℕ → HistOutcome × FetcherState × ℕ
  | 0, _ => (.noResult, s, 0)
  | n + 1, attempt =>
    match provider attempt with
    | some rows =>
      if rows.isEmpty then
        if n = 0 then (.mock mockRows, { s with apiFailed := true }, 1)
        else
          let r := histLoop provider mockRows s n (attempt + 1)
          (r.1, r.2.1, r.2.2 + 1)
      else (.real rows, { s with apiFailed := false }, 1)
    | none =>
      if n = 0 then (.mock mockRows, { s with apiFailed := true }, 1)
      else
        let r := histLoop provider mockRows s n (attempt + 1)
        (r.1, r.2.1, r.2.2 + 1)

/-- `DataFetcher.get_historical_data(coin, period)`: mock immediately when
`use_mock_data` or `api_failed` is set, otherwise run the retry loop. -/
def get_historical_data (provider : ℕ → Option (List OHLCVRow)) (rng : MockRng)
    (today : ℤ) (coin period : String) (max_retries : ℕ) (s : FetcherState) :
    HistOutcome × FetcherState × ℕ :=
  if s.useMockData || s.apiFailed then
    (.mock (generate_historical_data rng coin (days_map period) today), s, 0)
  else
    histLoop provider (generate_historical_data rng coin (days_map period) today)
      s max_retries 0

inductive PriceOutcome
  | real (price : ℚ)
  | mockPrice (coin : String)
  | noResult
deriving Repr, DecidableEq

/-- The retry loop of `get_current_price` (payload abstracted to the price). -/
def priceLoop (provider : ℕ → Option ℚ) (coin : String) (s : FetcherState) :
    ℕ → ℕ → PriceOutcome × FetcherState × ℕ
  | 0, _ => (.noResult, s, 0)
  | n + 1, attempt =>
    match provider attempt with
    | some p => (.real p, { s with apiFailed := false }, 1)
    | none =>
      if n = 0 then (.mockPrice coin, { s with apiFailed := true }, 1)
      else
        let r := priceLoop provider coin s n (attempt + 1)
        (r.1, r.2.1, r.2.2 + 1)

/-- `DataFetcher.get_current_price(coin)`. -/
def get_current_price (provider : ℕ → Option ℚ) (coin : String)
    (max_retries : ℕ) (s : FetcherState) : PriceOutcome × FetcherState × ℕ :=
  if s.useMockData || s.apiFailed then (.mockPrice coin, s, 0)
  else priceLoop provider coin s max_retries 0

/-- Which source the prepared model data came from. -/
inductive DataSource
  | mock
  | real
deriving Repr, DecidableEq

/-- `DataFetcher.prepare_data_for_model(coin)`: the data-source selection and
state effects (the downstream indicator/sentiment enrichment touches neither
the provider nor the flag).  A `None` historical result or a mock fallback
both yield mock-sourced data. -/
def prepare_data_for_model (provider : ℕ → Option (List OHLCVRow))
    (rng : MockRng) (today : ℤ) (coin : String) (s : FetcherState) :
    DataSource × FetcherState × ℕ :=
  if s.useMockData || s.apiFailed then (.mock, s, 0)
  else
    let r := get_historical_data provider rng today coin "5y" 2 s
    match r.1 with
    | .real _ => (.real, r.2.1, r.2.2)
    | .mock _ => (.mock, r.2.1, r.2.2)
    | .noResult => (.mock, r.2.1, r.2.2)

/-- A provider attempt counts as failed when it raised (`none`) or returned
an empty frame (`data is None or data.empty`). -/
def attemptFails (r : Option (List OHLCVRow)) : Bool :=
  match r with
  | none => true
  | some rows => rows.isEmpty

/-- A concrete all-zero draw sequence (used to instantiate theorems). -/
def zeroRng : MockRng :=
  ⟨fun _ => 0, fun _ => 0, fun _ => 0, fun _ => 0, fun _ => 0⟩

/-! ## Artifact files (price_predictor.py, train / load_model)

`train` writes three files for a coin: the model checkpoint (written during
`fit` by `ModelCheckpoint`), then the pickled scaler, then the config JSON.
Each file slot records which training run last wrote it (`none` = absent). -/

structure ArtifactFiles where
  modelFile : Option ℕ
  scalerFile : Option ℕ
  configFile : Option ℕ
deriving Repr, DecidableEq

inductive SaveStep
  | writeModel
  | writeScaler
  | writeConfig
deriving Repr, DecidableEq

def applyStep (run : ℕ) (fs : ArtifactFiles) : SaveStep → ArtifactFiles
  | .writeModel => { fs with modelFile := some run }
  | .writeScaler => { fs with scalerFile := some run }
  | .writeConfig => { fs with configFile := some run }

/-- The write order of one training run: model checkpoint during `fit`, then
`pickle.dump(self.scaler)`, then `json.dump(config)` — three separate file
writes with no staging or rename. -/
def trainWrites : List SaveStep := [.writeModel, .writeScaler, .writeConfig]

def runSteps (run : ℕ) (fs : ArtifactFiles) (steps : List SaveStep) : ArtifactFiles :=
  steps.foldl (applyStep run) fs

/-- `load_model` + the config read in `predict`: requires the model and
scaler files to exist and loads all three parts as they currently are on
disk. -/
def load_model (fs : ArtifactFiles) : Option (ℕ × ℕ × Option ℕ) :=
  match fs.modelFile, fs.scalerFile with
  | some m, some sc => some (m, sc, fs.configFile)
  | _, _ => none

/-! ## Backtest evaluator (check_accuracy.py, evaluate_model_accuracy)

The trained model and scaler inverse are abstracted as a function from the
day index to the reconstructed predicted price. -/

structure AccuracyResult where
  directionalAccuracy : ℚ
  correct : ℕ
  total : ℕ
  mape : ℚ
deriving Repr, DecidableEq

/-- Python's `range(a, b)` over the integers. -/
def intRange (a b : ℤ) : List ℤ :=
  (List.range (b - a).toNat).map (fun k => a + (k : ℤ))

/-- The day indices actually evaluated: `range(len(df) - days_to_test,
len(df))` with `if i < lookback: continue`. -/
def evalIndices (len daysToTest lookback : ℕ) : List ℤ :=
  (intRange ((len : ℤ) - (daysToTest : ℤ)) (len : ℤ)).filter
    (fun i => (lookback : ℤ) ≤ i)

/-- One iteration of the evaluation loop: accumulate the direction-match
counter, the prediction counter, and the percentage-error list. -/
def evalStep (closes : List ℚ) (predPrice : ℤ → ℚ) (acc : ℕ × ℕ × List ℚ)
    (i : ℤ) : ℕ × ℕ × List ℚ :=
  let predicted := predPrice i
  let actual := closes.getD i.toNat 0
  let prev := closes.getD (i - 1).toNat 0
  let errorPct := |predicted - actual| / actual * 100
  let predMove := predicted - prev
  let actualMove := actual - prev
  ((if (0 < predMove ∧ 0 < actualMove) ∨ (predMove < 0 ∧ actualMove < 0)
      then acc.1 + 1 else acc.1),
   acc.2.1 + 1, acc.2.2 ++ [errorPct])

def evalFold (closes : List ℚ) (predPrice : ℤ → ℚ) (idxs : List ℤ) :
    ℕ × ℕ × List ℚ :=
  idxs.foldl (evalStep closes predPrice) (0, 0, [])

/-- `evaluate_model_accuracy` aggregation: percentage of direction matches
(`if total_predictions > 0 else 0`) and mean percentage error
(`if errors else 0`). -/
def evaluate_model_accuracy (closes : List ℚ) (predPrice : ℤ → ℚ)
    (lookback daysToTest : ℕ) : AccuracyResult :=
  let r := evalFold closes predPrice (evalIndices closes.length daysToTest lookback)
  { directionalAccuracy := if 0 < r.2.1 then (r.1 : ℚ) / (r.2.1 : ℚ) * 100 else 0
    correct := r.1
    total := r.2.1
    mape := if r.2.2 ≠ [] then r.2.2.sum / (r.2.2.length : ℚ) else 0 }

/-! # Theorems -/

/-! ## Windowing count (C1) -/

/-- Helper: length of the scaled matrix equals the input length. -/
theorem fitTransform_length (X : List (List ℚ)) (n : ℕ) :
    (fitTransform X n).2.length = X.length := by
  simp [fitTransform]

/-- Helper: exact count of (window, target) pairs, in ℕ (truncated subtraction). -/
theorem prepare_sequences_length (features : List (List ℚ))
    (lookback predictionDays closeIdx nCols : ℕ) :
    (prepare_sequences features lookback predictionDays closeIdx nCols).length =
      features.length - predictionDays - lookback := by
  simp [prepare_sequences, fitTransform]

/-- C1: the claim, as stated, is false: with T = 2 rows, lookback L = 1 and
horizon H = 1, the claimed count is max(0, T - L - H + 1) = 1, but
`prepare_sequences` produces 0 pairs (the loop stops at
`len(scaled_data) - prediction_days`, discarding the final valid window). -/
theorem prepare_sequences_count_claim_false :
    ¬ (((prepare_sequences [[(1:ℚ)], [2]] 1 1 0 1).length : ℤ) =
        max 0 ((2 : ℤ) - 1 - 1 + 1)) := by
  decide

/-- C1 (amended): `prepare_sequences` on a feature table of length T with
lookback L and horizon H produces exactly max(0, T - L - H) (window, target)
pairs — one fewer than the spec's formula. -/
theorem prepare_sequences_count (features : List (List ℚ))
    (lookback predictionDays closeIdx nCols : ℕ) :
    ((prepare_sequences features lookback predictionDays closeIdx nCols).length : ℤ) =
      max 0 ((features.length : ℤ) - lookback - predictionDays) := by
  have h := prepare_sequences_length features lookback predictionDays closeIdx nCols
  omega

/-! ## Scaler round-trip (C7) -/

/-- `scale_` is never zero: a zero data range is replaced by 1 before the
reciprocal is taken. -/
theorem scaleOf_ne_zero (mn mx : ℚ) : scaleOf mn mx ≠ 0 := by
  unfold scaleOf handleZeros
  split
  · norm_num
  · exact one_div_ne_zero (by assumption)

theorem roundtrip_pointwise (xi mn mx : ℚ) :
    (xi * scaleOf mn mx + minOf mn mx - minOf mn mx) / scaleOf mn mx = xi := by
  have h := scaleOf_ne_zero mn mx
  field_simp

theorem roundtrip_zip (x : List ℚ) (ps : List (ℚ × ℚ)) (h : x.length = ps.length) :
    List.zipWith (fun xi (p : ℚ × ℚ) => (xi - minOf p.1 p.2) / scaleOf p.1 p.2)
      (List.zipWith (fun xi (p : ℚ × ℚ) => xi * scaleOf p.1 p.2 + minOf p.1 p.2) x ps)
      ps = x := by
  induction x generalizing ps with
  | nil => simp
  | cons a as ih =>
    cases ps with
    | nil => simp at h
    | cons p ps' =>
      simp only [List.zipWith, List.cons.injEq]
      exact ⟨roundtrip_pointwise a p.1 p.2, ih ps' (by simpa using h)⟩

/-- C7: for every feature vector whose components lie within the fitted
per-feature min/max bounds, `inverse_transform (transform x) = x` exactly
(the rational model has no rounding, so the float claim's tolerance is met). -/
theorem scaler_round_trip (s : MinMaxScaler) (x : List ℚ)
    (hlen : x.length = s.dataMin.length) (hlen2 : s.dataMax.length = s.dataMin.length)
    (hbounds : ∀ j < x.length, s.dataMin.getD j 0 ≤ x.getD j 0 ∧
      x.getD j 0 ≤ s.dataMax.getD j 0) :
    s.inverseRow (s.transformRow x) = x := by
  unfold MinMaxScaler.inverseRow MinMaxScaler.transformRow
  exact roundtrip_zip x (s.dataMin.zip s.dataMax)
    (by rw [List.length_zip, hlen2, min_self, hlen])

/-- C7 witness: a concrete scaler fitted with bounds [0,2] and [1,5] and the
in-bounds vector [1, 3] round-trips exactly. -/
theorem scaler_round_trip_witness :
    (MinMaxScaler.mk [0, 1] [2, 5]).inverseRow
      ((MinMaxScaler.mk [0, 1] [2, 5]).transformRow [1, 3]) = [1, 3] :=
  scaler_round_trip (MinMaxScaler.mk [0, 1] [2, 5]) [1, 3]
    (by decide) (by decide) (by decide)

/-! ## Inference with a missing manifest column (C2) -/

/-- Filtering a list by a predicate that fails on one of its members yields a
strictly shorter list. -/
theorem length_filter_lt {α} (p : α → Bool) (l : List α) (a : α)
    (ha : a ∈ l) (hpa : p a = false) : (l.filter p).length < l.length := by
  induction l with
  | nil => cases ha
  | cons b bs ih =>
    rcases List.mem_cons.mp ha with h | h
    · subst h
      simp only [List.filter_cons, hpa, Bool.false_eq_true, if_false, List.length_cons]
      exact Nat.lt_succ_of_le (List.length_filter_le p bs)
    · simp only [List.filter_cons]
      split
      · simpa using Nat.succ_lt_succ (ih h)
      · exact Nat.lt_trans (ih h) (Nat.lt_succ_self _)

/-- C2: when the loaded manifest names a column absent from the inference
table (and the scaler was fitted on the full manifest width, as training
guarantees), `predict` fails with an explicit error: the column filter
shortens the row, and the scaler's feature-count check rejects the narrower
matrix before any prediction is made. -/
theorem predict_missing_column_errors (scaler : MinMaxScaler)
    (feature_cols : List String) (lookback predictionDays : ℕ)
    (model : List (List ℚ) → List ℚ) (df : DataFrame) (lastDate : ℤ)
    (c : String) (hfit : scaler.nFeaturesIn = feature_cols.length)
    (hc : c ∈ feature_cols) (hmiss : df.cols.contains c = false) :
    predict scaler feature_cols lookback predictionDays model df lastDate =
      .error "X has a different number of features than MinMaxScaler was fitted with" := by
  have hlt : (feature_cols.filter (fun c => df.cols.contains c)).length <
      feature_cols.length :=
    length_filter_lt _ feature_cols c hc hmiss
  have hne : ¬ ((feature_cols.filter (fun c => df.cols.contains c)).length =
      scaler.nFeaturesIn) := by omega
  simp only [predict, MinMaxScaler.transformMatrix, if_neg hne]
  rfl

/-- C2 witness: a scaler fitted on 3 features with manifest
[Close, Volume, RSI] and a table having only [Close, Volume] makes `predict`
return an error. -/
theorem predict_missing_column_errors_witness :
    (MinMaxScaler.mk [0, 0, 0] [1, 1, 1]).nFeaturesIn =
        ["Close", "Volume", "RSI"].length ∧
    "RSI" ∈ ["Close", "Volume", "RSI"] ∧
    (["Close", "Volume"] : List String).contains "RSI" = false ∧
    predict (MinMaxScaler.mk [0, 0, 0] [1, 1, 1]) ["Close", "Volume", "RSI"] 2 1
        (fun _ => [0]) (DataFrame.mk ["Close", "Volume"] [[1, 2], [2, 3]]) 0 =
      .error "X has a different number of features than MinMaxScaler was fitted with" :=
  ⟨by decide, by decide, by decide,
    predict_missing_column_errors (MinMaxScaler.mk [0, 0, 0] [1, 1, 1])
      ["Close", "Volume", "RSI"] 2 1 (fun _ => [0])
      (DataFrame.mk ["Close", "Volume"] [[1, 2], [2, 3]]) 0 "RSI"
      (by decide) (by decide) (by decide)⟩

/-! ## Forecast dates and percentage change (C8) -/

/-- Indexing the mapped range: entry `i` of the reconstruction loop. -/
theorem reconstructForecasts_getD (prices : List ℚ) (currentPrice : ℚ)
    (lastDate : ℤ) (H i : ℕ) (hi : i < H) :
    (reconstructForecasts prices currentPrice lastDate H).getD i default =
      { date := lastDate + (i : ℤ) + 1
        price := prices.getD i 0
        changePercent := ((prices.getD i 0) - currentPrice) / currentPrice * 100 } := by
  simp [reconstructForecasts, List.getD_eq_getElem?_getD, List.getElem?_map,
    List.getElem?_range hi]

/-- C8: for every horizon H, the i-th forecast (i = 1..H as 0-based i < H)
carries date = last known date + (i+1) calendar days and
change_percent = (predicted_price − last_known_close) / last_known_close · 100. -/
theorem reconstruct_forecast_dates_and_change (prices : List ℚ)
    (currentPrice : ℚ) (lastDate : ℤ) (H i : ℕ) (hi : i < H) :
    ((reconstructForecasts prices currentPrice lastDate H).getD i default).date =
        lastDate + (i : ℤ) + 1 ∧
    ((reconstructForecasts prices currentPrice lastDate H).getD i default).changePercent =
      (((reconstructForecasts prices currentPrice lastDate H).getD i default).price -
          currentPrice) / currentPrice * 100 := by
  rw [reconstructForecasts_getD prices currentPrice lastDate H i hi]
  exact ⟨rfl, rfl⟩

/-- C8 witness: concrete two-step forecast from prices [104, 110] with last
close 100 and last date (day) 0: second entry dated day 2 with a 10% change. -/
theorem reconstruct_forecast_dates_and_change_witness :
    ((reconstructForecasts [104, 110] 100 0 2).getD 1 default).date =
        0 + ((1 : ℕ) : ℤ) + 1 ∧
    ((reconstructForecasts [104, 110] 100 0 2).getD 1 default).changePercent =
      (((reconstructForecasts [104, 110] 100 0 2).getD 1 default).price - 100) /
        100 * 100 :=
  reconstruct_forecast_dates_and_change [104, 110] 100 0 2 1 (by decide)

/-! ## Indicators on a constant series (C3) -/

set_option maxRecDepth 20000 in
unseal Rat.mul Rat.inv Rat.add Rat.sub in
/-- Helper (evaluation): on the 120-row constant table every RSI entry is
NaN — `delta` is 0 after the first row, so both rolling means are 0 and
`rs = 0/0 = NaN`, which propagates through `100 - 100/(1+rs)`. -/
theorem rsiSeries_const : rsiSeries constClose120 = List.replicate 120 .nan := by
  decide

set_option maxRecDepth 20000 in
unseal Rat.mul Rat.inv Rat.add Rat.sub in
/-- Helper (evaluation): the 20-day rolling sample variance of the constant
table is 0 after warm-up. -/
theorem rollingVar_const :
    rollingVar 20 constClose120 =
      List.replicate 19 none ++ List.replicate 101 (some 0) := by
  decide

set_option maxRecDepth 20000 in
unseal Rat.mul Rat.inv Rat.add Rat.sub in
/-- Helper (evaluation): the 20-day rolling mean of the constant table is 100
after warm-up. -/
theorem bbMiddle_const :
    bbMiddle constClose120 =
      List.replicate 19 none ++ List.replicate 101 (some 100) := by
  decide

/-- Helper: the Bollinger band width on the constant table is exactly 0 after
warm-up. -/
theorem bbWidth_const :
    bbWidth constClose120 =
      List.replicate 19 none ++ List.replicate 101 (some (0 : ℝ)) := by
  unfold bbWidth bbUpper bbLower bbStd
  rw [rollingVar_const, bbMiddle_const, List.map_append]
  simp only [List.map_replicate, Option.map_none', Option.map_some']
  rw [show Real.sqrt ((0 : ℚ) : ℝ) = 0 by simp]
  rw [List.zipWith_append _ _ _ _ _ (by simp), List.zipWith_replicate',
    List.zipWith_replicate', List.zipWith_append _ _ _ _ _ (by simp),
    List.zipWith_replicate', List.zipWith_replicate']
  norm_num

/-- C3: the claim is false on the code: at row 119 of the 120-row table with
constant close 100.0 (well after warm-up) the RSI is NaN — `gain` and `loss`
are both 0, so `rs = 0/0` — so RSI is not ≈ 50 and a NaN does propagate into
the post-warm-up rows. -/
theorem rsi_constant_close_claim_false :
    ¬ ∃ q : ℚ, (rsiSeries constClose120).getD 119 (.fin 0) = .fin q := by
  intro h
  obtain ⟨q, h⟩ := h
  rw [rsiSeries_const] at h
  simp [List.getD_eq_getElem?_getD, List.getElem?_replicate] at h

/-- C3 (amended): on the 120-row constant-close table, every post-warm-up row
has RSI = NaN (division 0/0, since flat momentum gives zero mean gain and
zero mean loss) while the Bollinger band width BB_Upper − BB_Lower is
exactly 0. -/
theorem indicators_constant_close (i : ℕ) (h19 : 19 ≤ i) (h120 : i < 120) :
    (rsiSeries constClose120).getD i (.fin 0) = .nan ∧
    (bbWidth constClose120).getD i none = some (0 : ℝ) := by
  constructor
  · rw [rsiSeries_const, List.getD_eq_getElem?_getD,
      List.getElem?_replicate_of_lt h120]
    rfl
  · rw [bbWidth_const, List.getD_eq_getElem?_getD,
      List.getElem?_append_right (by simpa using h19)]
    simp only [List.length_replicate]
    rw [List.getElem?_replicate_of_lt (by omega)]
    rfl

/-- C3 witness: the amended fact instantiated at the first post-warm-up
row i = 19. -/
theorem indicators_constant_close_witness :
    (19 ≤ 19 ∧ 19 < 120) ∧
    ((rsiSeries constClose120).getD 19 (.fin 0) = .nan ∧
      (bbWidth constClose120).getD 19 none = some (0 : ℝ)) :=
  ⟨⟨by decide, by decide⟩, indicators_constant_close 19 (by decide) (by decide)⟩

/-! ## Artifact atomicity (C4) -/

/-- C4: the claim fails on the code.  Training run 1 completes all three
writes; training run 2 writes the model checkpoint (which `ModelCheckpoint`
emits during `fit`) and is interrupted before the scaler dump; a load then
returns run 2's regressor paired with run 1's scaler and config — the three
separate writes are not a single transaction. -/
theorem load_observes_mixed_artifact :
    load_model (runSteps 2 (runSteps 1 ⟨none, none, none⟩ trainWrites)
        (trainWrites.take 1)) = some (2, 1, some 1) := by
  decide

/-! ## Sticky degraded mode (C5) -/

/-- C5: once `api_failed` is set, `get_historical_data`,
`get_current_price` and `prepare_data_for_model` all return synthetic data
with zero provider calls and leave the flag set (no reset path exists while
it is set), so the coordinator stays degraded until process restart. -/
theorem degraded_mode_sticky (provider : ℕ → Option (List OHLCVRow))
    (pprovider : ℕ → Option ℚ) (rng : MockRng) (today : ℤ)
    (coin period : String) (mr : ℕ) (s : FetcherState)
    (h : s.apiFailed = true) :
    get_historical_data provider rng today coin period mr s =
      (.mock (generate_historical_data rng coin (days_map period) today), s, 0) ∧
    get_current_price pprovider coin mr s = (.mockPrice coin, s, 0) ∧
    prepare_data_for_model provider rng today coin s = (.mock, s, 0) := by
  unfold get_historical_data get_current_price prepare_data_for_model
  simp [h]

/-- C5 witness: a coordinator whose flag is set serves all three operations
from the synthetic generator without touching the provider. -/
theorem degraded_mode_sticky_witness :
    (FetcherState.mk false true).apiFailed = true ∧
    (get_historical_data (fun _ => none) zeroRng 0 "BTC" "1y" 2
        (FetcherState.mk false true) =
      (.mock (generate_historical_data zeroRng "BTC" (days_map "1y") 0),
        FetcherState.mk false true, 0) ∧
    get_current_price (fun _ => none) "BTC" 2 (FetcherState.mk false true) =
      (.mockPrice "BTC", FetcherState.mk false true, 0) ∧
    prepare_data_for_model (fun _ => none) zeroRng 0 "BTC"
        (FetcherState.mk false true) =
      (.mock, FetcherState.mk false true, 0)) :=
  ⟨rfl, degraded_mode_sticky (fun _ => none) (fun _ => none) zeroRng 0
    "BTC" "1y" 2 (FetcherState.mk false true) rfl⟩

/-! ## Synthetic fallback on exhausted provider (C6) -/

/-- Helper: when every provider attempt fails, the retry loop ends in mock
data with the degraded flag set, after consuming every attempt. -/
theorem histLoop_all_fail (provider : ℕ → Option (List OHLCVRow))
    (mockRows : List OHLCVRow) (s : FetcherState)
    (hfail : ∀ i, attemptFails (provider i) = true) :
    ∀ n attempt, 1 ≤ n →
      histLoop provider mockRows s n attempt =
        (.mock mockRows, { s with apiFailed := true }, n) := by
  intro n
  induction n with
  | zero => intro attempt h; omega
  | succ n ih =>
    intro attempt _
    have hf := hfail attempt
    unfold histLoop
    cases hp : provider attempt with
    | none =>
      by_cases hn : n = 0
      · subst hn; simp
      · simp only [hn, if_false]
        rw [ih (attempt + 1) (by omega)]
    | some rows =>
      have hemp : rows.isEmpty = true := by
        rw [hp] at hf; simpa [attemptFails] using hf
      simp only [hemp, if_true]
      by_cases hn : n = 0
      · subst hn; simp
      · simp only [hn, if_false]
        rw [ih (attempt + 1) (by omega)]

/-- Helper: the synthetic series has exactly the requested number of rows. -/
theorem generate_historical_data_length (rng : MockRng) (coin : String)
    (days : ℕ) (today : ℤ) :
    (generate_historical_data rng coin days today).length = days := by
  simp [generate_historical_data]

/-- Helper: every period string maps to at least one day. -/
theorem days_map_pos (period : String) : 1 ≤ days_map period := by
  unfold days_map
  split <;> norm_num

/-- C6: with a provider that fails on every attempt (and at least one
attempt configured, as the default `max_retries=2` is), `get_historical_data`
returns synthetic mock data of exactly `days_map(period)` rows — non-empty —
instead of raising. -/
theorem exhausted_provider_synthetic (provider : ℕ → Option (List OHLCVRow))
    (rng : MockRng) (today : ℤ) (coin period : String) (mr : ℕ)
    (s : FetcherState) (hfail : ∀ i, attemptFails (provider i) = true)
    (hmr : 1 ≤ mr) (hmock : s.useMockData = false) (hapi : s.apiFailed = false) :
    get_historical_data provider rng today coin period mr s =
      (.mock (generate_historical_data rng coin (days_map period) today),
        { s with apiFailed := true }, mr) ∧
    (generate_historical_data rng coin (days_map period) today).length =
      days_map period ∧
    generate_historical_data rng coin (days_map period) today ≠ [] := by
  refine ⟨?_, generate_historical_data_length rng coin (days_map period) today, ?_⟩
  · obtain ⟨um, af⟩ := s
    simp only at hmock hapi
    subst hmock hapi
    exact histLoop_all_fail provider _ (FetcherState.mk false false) hfail mr 0 hmr
  · apply List.ne_nil_of_length_pos
    rw [generate_historical_data_length]
    exact days_map_pos period

/-- C6 witness: a provider raising on every attempt, a fresh coordinator and
period "1d": the result is one day of mock data with the flag flipped. -/
theorem exhausted_provider_synthetic_witness :
    (∀ i : ℕ, attemptFails ((fun _ => none) i) = true) ∧ 1 ≤ 2 ∧
    (FetcherState.mk false false).useMockData = false ∧
    (FetcherState.mk false false).apiFailed = false ∧
    (get_historical_data (fun _ => none) zeroRng 0 "BTC" "1d" 2
        (FetcherState.mk false false) =
      (.mock (generate_historical_data zeroRng "BTC" (days_map "1d") 0),
        { FetcherState.mk false false with apiFailed := true }, 2) ∧
    (generate_historical_data zeroRng "BTC" (days_map "1d") 0).length =
      days_map "1d" ∧
    generate_historical_data zeroRng "BTC" (days_map "1d") 0 ≠ []) :=
  ⟨fun _ => rfl, by decide, rfl, rfl,
    exhausted_provider_synthetic (fun _ => none) zeroRng 0 "BTC" "1d" 2
      (FetcherState.mk false false) (fun _ => rfl) (by decide) rfl rfl⟩

/-! ## Backtest evaluator with zero evaluable days (C9) -/

/-- Helper: the fold counts one prediction and one error entry per evaluated
index. -/
theorem evalFold_total_length (closes : List ℚ) (predPrice : ℤ → ℚ)
    (idxs : List ℤ) :
    (evalFold closes predPrice idxs).2.1 = idxs.length ∧
    (evalFold closes predPrice idxs).2.2.length = idxs.length := by
  suffices h : ∀ (l : List ℤ) (acc : ℕ × ℕ × List ℚ),
      (l.foldl (evalStep closes predPrice) acc).2.1 = acc.2.1 + l.length ∧
      (l.foldl (evalStep closes predPrice) acc).2.2.length =
        acc.2.2.length + l.length by
    have := h idxs (0, 0, [])
    simpa [evalFold] using this
  intro l
  induction l with
  | nil => intro acc; simp
  | cons i is ih =>
    intro acc
    simp only [List.foldl_cons, List.length_cons]
    have hstep1 : (evalStep closes predPrice acc i).2.1 = acc.2.1 + 1 := rfl
    have hstep2 : (evalStep closes predPrice acc i).2.2.length =
        acc.2.2.length + 1 := by simp [evalStep]
    obtain ⟨ht, he⟩ := ih (evalStep closes predPrice acc i)
    rw [ht, he, hstep1, hstep2]
    omega

/-- C9: when zero days were evaluable (no predictions made), the evaluator
returns directional_accuracy = 0 and mape = 0 instead of dividing by zero. -/
theorem evaluate_zero_days (closes : List ℚ) (predPrice : ℤ → ℚ)
    (lookback daysToTest : ℕ)
    (h : (evaluate_model_accuracy closes predPrice lookback daysToTest).total = 0) :
    (evaluate_model_accuracy closes predPrice lookback daysToTest).directionalAccuracy
        = 0 ∧
    (evaluate_model_accuracy closes predPrice lookback daysToTest).mape = 0 := by
  have hidx := evalFold_total_length closes predPrice
    (evalIndices closes.length daysToTest lookback)
  have htot : (evaluate_model_accuracy closes predPrice lookback daysToTest).total =
      (evalFold closes predPrice
        (evalIndices closes.length daysToTest lookback)).2.1 := rfl
  rw [htot] at h
  have hnil : evalIndices closes.length daysToTest lookback = [] := by
    apply List.eq_nil_of_length_eq_zero
    omega
  unfold evaluate_model_accuracy
  rw [hnil]
  simp [evalFold]

/-- C9 witness: two rows of data, lookback 60, a 30-day test window: no index
reaches the lookback, so zero predictions and zero-defined results. -/
theorem evaluate_zero_days_witness :
    (evaluate_model_accuracy [1, 2] (fun _ => 0) 60 30).total = 0 ∧
    ((evaluate_model_accuracy [1, 2] (fun _ => 0) 60 30).directionalAccuracy = 0 ∧
      (evaluate_model_accuracy [1, 2] (fun _ => 0) 60 30).mape = 0) :=
  ⟨by decide, evaluate_zero_days [1, 2] (fun _ => 0) 60 30 (by decide)⟩

/-! ## Synthetic walk ends at the base price (C10) -/

theorem walkAux_length (changes : ℕ → ℚ) :
    ∀ (n : ℕ) (cur : ℚ) (i : ℕ), (walkAux changes n cur i).length = n := by
  intro n
  induction n with
  | zero => intro cur i; rfl
  | succ n ih => intro cur i; simp [walkAux, ih]

theorem walkAux_ne_zero (changes : ℕ → ℚ) (h : ∀ k, 1 + changes k ≠ 0) :
    ∀ (n : ℕ) (cur : ℚ) (i : ℕ), cur ≠ 0 →
      ∀ x ∈ walkAux changes n cur i, x ≠ 0 := by
  intro n
  induction n with
  | zero => intro cur i _ x hx; simp [walkAux] at hx
  | succ n ih =>
    intro cur i hc x hx
    simp only [walkAux, List.mem_cons] at hx
    have hne : cur * (1 + changes i) ≠ 0 := mul_ne_zero hc (h i)
    rcases hx with rfl | hx
    · exact hne
    · exact ih _ _ hne x hx

theorem base_prices_pos (coin : String) : 0 < base_prices coin := by
  unfold base_prices
  split <;> norm_num

/-- C10: the synthetic series for any coin and any `days ≥ 1` ends at a close
equal to the coin's configured base price: the whole walk is rescaled by
`base_price / prices[-1]`.  (The hypothesis `1 + change ≠ 0` excludes the
measure-zero draw that collapses the walk to zero.) -/
theorem generate_last_close (rng : MockRng) (coin : String) (days : ℕ)
    (today : ℤ) (hdays : 1 ≤ days) (hch : ∀ k, 1 + rng.change k ≠ 0) :
    ((generate_historical_data rng coin days today).map (·.close)).getLast? =
      some (base_prices coin) := by
  have hbase : base_prices coin ≠ 0 := ne_of_gt (base_prices_pos coin)
  have hstart : base_prices coin * (7 / 10) ≠ 0 :=
    mul_ne_zero hbase (by norm_num)
  have hplen : (walkPrices (base_prices coin) rng.change days).length = days :=
    walkAux_length rng.change days _ 0
  obtain ⟨p, hp⟩ : ∃ p,
      (walkPrices (base_prices coin) rng.change days)[days - 1]? = some p :=
    ⟨_, List.getElem?_eq_getElem (by omega)⟩
  have hpmem : p ∈ walkPrices (base_prices coin) rng.change days :=
    List.getElem?_mem hp
  have hpne : p ≠ 0 :=
    walkAux_ne_zero rng.change hch days _ 0 hstart p hpmem
  have hlast : (walkPrices (base_prices coin) rng.change days).getLast?.getD 0 = p := by
    rw [List.getLast?_eq_getElem?, hplen, hp]
    rfl
  simp only [generate_historical_data, List.map_map]
  rw [List.getLast?_eq_getElem?]
  simp only [List.length_map, List.length_range]
  rw [List.getElem?_map, List.getElem?_range (by omega : days - 1 < days)]
  simp only [Option.map_some', Function.comp_apply]
  rw [hlast, List.getD_eq_getElem?_getD, List.getElem?_map, hp]
  simp only [Option.map_some', Option.getD_some]
  rw [mul_comm, div_mul_cancel₀ _ hpne]

/-- C10 witness: for BTC, 3 days and all-zero draws the series ends exactly
at 96000. -/
theorem generate_last_close_witness :
    1 ≤ 3 ∧ (∀ k : ℕ, 1 + zeroRng.change k ≠ 0) ∧
    ((generate_historical_data zeroRng "BTC" 3 0).map (·.close)).getLast? =
      some (base_prices "BTC") :=
  ⟨by decide, fun k => by norm_num [zeroRng],
    generate_last_close zeroRng "BTC" 3 0 (by decide)
      (fun k => by norm_num [zeroRng])⟩

end CryptoPred
